import Mathlib

/-!
Shallow embedding of the two front ends of the swot-analyzer repository.

The local (Tauri) variant lives in src/swot-analyzer/src/App.jsx and drives
workflows through `invoke`; the hosted variant lives in
src/public-swot/frontend/src/App.jsx and drives them through `fetch`.
Handlers are modelled as pure functions from the component state and the
outcome of the awaited transport call to the resulting state together with a
trace of observable events (state setters, alerts, transport invocations),
listed in the order the JavaScript statements execute them.
-/

/-- Truthiness of a JavaScript string: only the empty string is falsy, so a
whitespace-only string is truthy. -/
def strTruthy (s : String) : Bool := !(s == "")

/-- Outcome of one awaited transport call (a resolved value or a rejection
carrying an error message), as seen by the `try`/`catch` in the handlers. -/
inductive InvokeOutcome (α : Type) where
  | ok (v : α)
  | err (msg : String)
  deriving DecidableEq

/-- Observable events of the local (Tauri) front end: alerts, transport
invocations, and the progress/message/loading state setters. -/
inductive LEvent where
  | alert (msg : String)
  | invoke (op : String)
  | progressUpdate (p : Nat)
  | messageUpdate (m : String)
  | loadingUpdate (b : Bool)
  deriving DecidableEq

/-- React state of the local App component (App.jsx lines 7-23), with the
initial values of the useState hooks as defaults. -/
structure LocalState where
  ollamaStatus : String := ""
  isOllamaReady : Bool := false
  loading : Bool := false
  loadingMessage : String := ""
  progress : Nat := 0
  csvPath : String := ""
  businessName : String := ""
  questions : List String := []
  swotCsvPath : String := ""
  pdfPath : String := ""
  swotBusinessName : String := ""
  swotAnalysis : String := ""
  deriving DecidableEq

/-- Guard of generateQuestions (App.jsx line 83): the early return fires when
csvPath or businessName is falsy. -/
def questionsGuardFails (csvPath businessName : String) : Bool :=
  !(strTruthy csvPath) || !(strTruthy businessName)

/-- Guard of generateSwot (App.jsx line 170). -/
def swotGuardFails (csvPath pdfPath businessName : String) : Bool :=
  !(strTruthy csvPath) || !(strTruthy pdfPath) || !(strTruthy businessName)

/-- Validation failure message of generateQuestions (App.jsx line 84). -/
def questionsValidationMsg : String :=
  "Please select a CSV file and enter a business name"

/-- Validation failure message of generateSwot (App.jsx line 171). -/
def swotValidationMsg : String :=
  "Please select CSV file, PDF file, and enter a business name"

/-- Warning alert shown when the transport returns zero questions
(App.jsx line 127). -/
def emptyQuestionsMsg : String :=
  "No questions were generated. Please check if the business name exists in the CSV file."

/-- Events of the finally block shared by both local handlers (App.jsx
lines 132-138 and 213-219): the delayed callback clears loading first, then
resets progress to 0 and clears the message. -/
def finallyEvents : List LEvent :=
  [LEvent.loadingUpdate false, LEvent.progressUpdate 0, LEvent.messageUpdate ("")]

/-- Events generateQuestions emits before and including the transport call
(App.jsx lines 88-114). -/
def questionsPreEvents : List LEvent :=
  [LEvent.loadingUpdate true, LEvent.progressUpdate 0,
   LEvent.messageUpdate ("Reading CSV file..."),
   LEvent.progressUpdate 20, LEvent.messageUpdate ("Finding company data..."),
   LEvent.progressUpdate 40, LEvent.messageUpdate ("Preparing AI prompt..."),
   LEvent.progressUpdate 60, LEvent.messageUpdate ("Generating questions with AI..."),
   LEvent.invoke ("generate_followup_questions")]

/-- Full event trace of generateQuestions when the transport call resolves
(App.jsx lines 116-128 then the finally block). -/
def questionsOkTrace (result : List String) : List LEvent :=
  questionsPreEvents ++
    [LEvent.progressUpdate 90, LEvent.messageUpdate ("Processing results..."),
     LEvent.progressUpdate 100, LEvent.messageUpdate ("Complete!")] ++
    (if result.isEmpty then [LEvent.alert emptyQuestionsMsg] else []) ++
    finallyEvents

/-- Full event trace of generateQuestions when the transport call rejects
(App.jsx lines 129-131 then the finally block). -/
def questionsErrTrace (e : String) : List LEvent :=
  questionsPreEvents ++
    [LEvent.alert ("Error generating questions: " ++ e)] ++ finallyEvents

/-- The generateQuestions handler (App.jsx lines 82-139): early return on the
falsy-field guard, otherwise the simulated progress phases, one transport
call, and the success or error tail, with the state updates accumulated. -/
def generateQuestions (s : LocalState) (t : InvokeOutcome (List String)) :
    LocalState × List LEvent :=
  if questionsGuardFails s.csvPath s.businessName then
    (s, [LEvent.alert questionsValidationMsg])
  else
    match t with
    | InvokeOutcome.ok result =>
        ({ s with questions := result, loading := false, progress := 0, loadingMessage := "" },
         questionsOkTrace result)
    | InvokeOutcome.err e =>
        ({ s with loading := false, progress := 0, loadingMessage := "" },
         questionsErrTrace e)

/-- Events generateSwot emits before and including the transport call
(App.jsx lines 175-202). -/
def swotPreEvents : List LEvent :=
  [LEvent.loadingUpdate true, LEvent.progressUpdate 0,
   LEvent.messageUpdate ("Reading files..."),
   LEvent.progressUpdate 15, LEvent.messageUpdate ("Processing CSV data..."),
   LEvent.progressUpdate 30, LEvent.messageUpdate ("Extracting PDF content..."),
   LEvent.progressUpdate 50, LEvent.messageUpdate ("Analyzing company data..."),
   LEvent.progressUpdate 70, LEvent.messageUpdate ("Generating SWOT analysis with AI..."),
   LEvent.invoke ("generate_swot_analysis")]

/-- Full event trace of generateSwot when the transport call resolves
(App.jsx lines 204-210 then the finally block). -/
def swotOkTrace : List LEvent :=
  swotPreEvents ++
    [LEvent.progressUpdate 95, LEvent.messageUpdate ("Finalizing analysis..."),
     LEvent.progressUpdate 100, LEvent.messageUpdate ("Complete!")] ++
    finallyEvents

/-- Full event trace of generateSwot when the transport call rejects
(App.jsx lines 211-212 then the finally block). -/
def swotErrTrace (e : String) : List LEvent :=
  swotPreEvents ++
    [LEvent.alert ("Error generating SWOT analysis: " ++ e)] ++ finallyEvents

/-- The generateSwot handler (App.jsx lines 169-220). -/
def generateSwot (s : LocalState) (t : InvokeOutcome String) :
    LocalState × List LEvent :=
  if swotGuardFails s.swotCsvPath s.pdfPath s.swotBusinessName then
    (s, [LEvent.alert swotValidationMsg])
  else
    match t with
    | InvokeOutcome.ok result =>
        ({ s with swotAnalysis := result, loading := false, progress := 0, loadingMessage := "" },
         swotOkTrace)
    | InvokeOutcome.err e =>
        ({ s with loading := false, progress := 0, loadingMessage := "" },
         swotErrTrace e)

/-- The saveQuestionsToPdf handler (App.jsx lines 141-167): guard on an empty
questions list, then the save dialog (none models cancellation) and the save
invocation whose failure is alerted with the error text appended. -/
def saveQuestionsToPdf (s : LocalState) (savePath : Option String)
    (saveResult : InvokeOutcome Unit) : List LEvent :=
  if s.questions.isEmpty then [LEvent.alert ("No questions to save")]
  else
    match savePath with
    | none => []
    | some _ =>
        match saveResult with
        | InvokeOutcome.ok _ =>
            [LEvent.invoke ("save_questions_to_pdf"),
             LEvent.alert ("Questions saved successfully!")]
        | InvokeOutcome.err e =>
            [LEvent.invoke ("save_questions_to_pdf"),
             LEvent.alert ("Error saving questions: " ++ e)]

/-- Sequence of progress percentages set along a trace. -/
def progressUpdates : List LEvent → List Nat
  | [] => []
  | LEvent.progressUpdate p :: rest => p :: progressUpdates rest
  | _ :: rest => progressUpdates rest

/-- Operation names of the transport invocations issued along a trace. -/
def invokeOps : List LEvent → List String
  | [] => []
  | LEvent.invoke op :: rest => op :: invokeOps rest
  | _ :: rest => invokeOps rest

/-- Prefix of a trace before the session slot is released, i.e. before the
first event that sets loading back to false. -/
def beforeRelease : List LEvent → List LEvent
  | [] => []
  | LEvent.loadingUpdate false :: _ => []
  | e :: rest => e :: beforeRelease rest

/-- The (percentage, label) phase pairs of a trace: each progress update
immediately followed by its message update. -/
def phasePairs : List LEvent → List (Nat × String)
  | LEvent.progressUpdate p :: LEvent.messageUpdate m :: rest =>
      (p, m) :: phasePairs rest
  | _ :: rest => phasePairs rest
  | [] => []

/-- The checkOllamaStatus handler (App.jsx lines 29-38): a resolved check
stores the status and marks readiness, a rejected one stores the error and
clears readiness. -/
def checkOllamaStatus (s : LocalState) (result : InvokeOutcome String) : LocalState :=
  match result with
  | InvokeOutcome.ok status => { s with ollamaStatus := status, isOllamaReady := true }
  | InvokeOutcome.err e => { s with ollamaStatus := e, isOllamaReady := false }

/-- Operation name of the readiness check. -/
def checkOp : String := "check_ollama_status"

/-- Enabled condition of the questions generate button (App.jsx line 312). -/
def localQuestionsSubmitEnabled (s : LocalState) : Bool :=
  !s.loading && strTruthy s.csvPath && strTruthy s.businessName

/-- Enabled condition of the SWOT generate button (App.jsx line 385). -/
def localSwotSubmitEnabled (s : LocalState) : Bool :=
  !s.loading && strTruthy s.swotCsvPath && strTruthy s.pdfPath &&
    strTruthy s.swotBusinessName

/-- User-triggerable actions of the local App: pressing one of the generate
buttons (with the outcome of the resulting transport call) or the retry
button of the readiness banner. -/
inductive LAction where
  | submitQuestions (t : InvokeOutcome (List String))
  | submitSwot (t : InvokeOutcome String)
  | retryCheck (r : InvokeOutcome String)
  deriving DecidableEq

/-- One user action against the rendered local App: the main content with the
generate buttons is rendered only when isOllamaReady (App.jsx line 264), so a
submit while unready is impossible and modelled as a no-op; the retry button
is rendered only while not ready (App.jsx line 257) and re-runs the check. -/
def appStep (s : LocalState) (a : LAction) : LocalState × List LEvent :=
  match a with
  | LAction.submitQuestions t =>
      if s.isOllamaReady then generateQuestions s t else (s, [])
  | LAction.submitSwot t =>
      if s.isOllamaReady then generateSwot s t else (s, [])
  | LAction.retryCheck r =>
      if s.isOllamaReady then (s, [])
      else (checkOllamaStatus s r, [LEvent.invoke checkOp])

/-- A sequence of user actions, with the event traces concatenated. -/
def appRun (s : LocalState) : List LAction → LocalState × List LEvent
  | [] => (s, [])
  | a :: rest =>
      let step := appStep s a
      let tail := appRun step.1 rest
      (tail.1, step.2 ++ tail.2)

/-- Whether an action is a readiness re-check that succeeds. -/
def isSuccessCheck : LAction → Bool
  | LAction.retryCheck (InvokeOutcome.ok _) => true
  | _ => false

/-- Workflow (non-readiness) transport invocations of a trace. -/
def workflowOps (tr : List LEvent) : List String :=
  (invokeOps tr).filter (fun op => !(op == checkOp))

/-- Initial state of the local App component. -/
def initialLocalState : LocalState := {}

/-- The whole process lifetime of the local App: the mount effect runs the
readiness check once (App.jsx lines 25-27), then the user actions follow. -/
def processRun (mount : InvokeOutcome String) (acts : List LAction) :
    LocalState × List LEvent :=
  let s0 := checkOllamaStatus initialLocalState mount
  let tail := appRun s0 acts
  (tail.1, LEvent.invoke checkOp :: tail.2)

/-!
The hosted variant (src/public-swot/frontend/src/App.jsx).
-/

/-- Shape of the detail field of a non-2xx response body: a plain string, an
object with a message field, or absent. -/
inductive Detail where
  | str (s : String)
  | obj (message : String)
  | absent
  deriving DecidableEq

/-- The error message thrown for a non-ok response (App.jsx hosted lines 52
and 84): data.detail?.message falls through to data.detail and then to the
fixed fallback, following JavaScript truthiness; a truthy object reaching the
Error constructor stringifies to [object Object]. -/
def detailMessage (d : Detail) (fallback : String) : String :=
  match d with
  | Detail.obj m => if m == "" then "[object Object]" else m
  | Detail.str s => if s == "" then fallback else s
  | Detail.absent => fallback

/-- Outcome of one awaited fetch round trip: an ok response with parsed data,
a non-ok response with its detail field, or a rejection (network or parse
failure) with its error message. -/
inductive FetchOutcome (α : Type) where
  | ok (data : α)
  | httpError (detail : Detail)
  | networkError (msg : String)
  deriving DecidableEq

/-- Success body of POST /api/generate-questions. -/
structure QuestionsData where
  business_name : String
  questions_count : Int
  questions_preview : List String
  pdf_id : String
  deriving DecidableEq

/-- Success body of POST /api/generate-swot. -/
structure SwotData where
  business_name : String
  swot_analysis : String
  pdf_id : String
  deriving DecidableEq

/-- Questions form state of the hosted App (hosted lines 8-12); the file is an
opaque handle, modelled by its name. -/
structure QuestionsForm where
  csvFile : Option String := none
  businessName : String := ""
  apiKey : String := ""
  deriving DecidableEq

/-- SWOT form state of the hosted App (hosted lines 13-18). -/
structure SwotForm where
  csvFile : Option String := none
  pdfFile : Option String := none
  businessName : String := ""
  apiKey : String := ""
  deriving DecidableEq

/-- React state of the hosted App component (hosted lines 7-23), with the
initial useState values as defaults. -/
structure HostedState where
  questionsForm : QuestionsForm := {}
  swotForm : SwotForm := {}
  questionsLoading : Bool := false
  swotLoading : Bool := false
  questionsResult : Option QuestionsData := none
  swotResult : Option SwotData := none
  error : Option String := none
  deriving DecidableEq

/-- Fallback message of the questions fetch (hosted line 52). -/
def questionsFallbackMsg : String := "Error generating questions"

/-- Fallback message of the SWOT fetch (hosted line 84). -/
def swotFallbackMsg : String := "Error generating SWOT analysis"

/-- State of the hosted App at the moment the questions fetch is issued
(hosted lines 34-36): loading set, shared error and own previous result
cleared; nothing else touched. -/
def hostedQuestionsPending (s : HostedState) : HostedState :=
  { s with questionsLoading := true, error := none, questionsResult := none }

/-- The hosted generateQuestions handler (hosted lines 32-61), returning the
final state and the list of fetch exchanges issued. -/
def hostedGenerateQuestions (s : HostedState) (outcome : FetchOutcome QuestionsData) :
    HostedState × List String :=
  let p := hostedQuestionsPending s
  let afterFetch :=
    match outcome with
    | FetchOutcome.ok d => { p with questionsResult := some d }
    | FetchOutcome.httpError d =>
        { p with error := some (detailMessage d questionsFallbackMsg) }
    | FetchOutcome.networkError m => { p with error := some m }
  ({ afterFetch with questionsLoading := false }, [("POST /api/generate-questions")])

/-- State of the hosted App at the moment the SWOT fetch is issued (hosted
lines 65-67). -/
def hostedSwotPending (s : HostedState) : HostedState :=
  { s with swotLoading := true, error := none, swotResult := none }

/-- The hosted generateSwot handler (hosted lines 63-93). -/
def hostedGenerateSwot (s : HostedState) (outcome : FetchOutcome SwotData) :
    HostedState × List String :=
  let p := hostedSwotPending s
  let afterFetch :=
    match outcome with
    | FetchOutcome.ok d => { p with swotResult := some d }
    | FetchOutcome.httpError d =>
        { p with error := some (detailMessage d swotFallbackMsg) }
    | FetchOutcome.networkError m => { p with error := some m }
  ({ afterFetch with swotLoading := false }, [("POST /api/generate-swot")])

/-- Enabled condition of the hosted questions submit button (hosted
line 252). -/
def hostedQuestionsSubmitEnabled (s : HostedState) : Bool :=
  !s.questionsLoading && s.questionsForm.csvFile.isSome &&
    strTruthy s.questionsForm.businessName && strTruthy s.questionsForm.apiKey

/-- Enabled condition of the hosted SWOT submit button (hosted line 387). -/
def hostedSwotSubmitEnabled (s : HostedState) : Bool :=
  !s.swotLoading && s.swotForm.csvFile.isSome && s.swotForm.pdfFile.isSome &&
    strTruthy s.swotForm.businessName && strTruthy s.swotForm.apiKey

/-- Submitting the hosted questions form: the disabled submit button makes the
handler unreachable unless the enabled condition holds. -/
def hostedSubmitQuestions (s : HostedState) (outcome : FetchOutcome QuestionsData) :
    HostedState × List String :=
  if hostedQuestionsSubmitEnabled s then hostedGenerateQuestions s outcome else (s, [])

/-- Submitting the hosted SWOT form. -/
def hostedSubmitSwot (s : HostedState) (outcome : FetchOutcome SwotData) :
    HostedState × List String :=
  if hostedSwotSubmitEnabled s then hostedGenerateSwot s outcome else (s, [])

/-- Outcome of the download fetch: an ok binary response, a non-ok response,
or a rejected fetch with an error message. -/
inductive DownloadOutcome where
  | ok
  | httpError
  | networkError (msg : String)
  deriving DecidableEq

/-- Fixed error message of the hosted download handler (hosted line 111). -/
def downloadFailedMsg : String := "Failed to download PDF"

/-- The hosted downloadPdf handler (hosted lines 95-113): any failure, non-ok
status or rejected fetch alike, sets the fixed message, discarding the caught
error. -/
def downloadPdf (s : HostedState) (outcome : DownloadOutcome) : HostedState :=
  match outcome with
  | DownloadOutcome.ok => s
  | DownloadOutcome.httpError => { s with error := some downloadFailedMsg }
  | DownloadOutcome.networkError _ => { s with error := some downloadFailedMsg }

/-- Number of additional questions described next to the preview in the
hosted success panel (hosted line 289): questions_count - 5, exact integer
arithmetic with no clamping. -/
def additionalQuestionsCount (questions_count : Int) : Int := questions_count - 5

/-!
Validator following the words of the specification, for comparison with the
guards found in the source.
-/

/-- Required fields of a GenerationRequest named by the specification. -/
inductive ReqField where
  | inputCsv
  | inputPdf
  | businessName
  | credential
  deriving DecidableEq

/-- Whether a string is empty or whitespace-only, the emptiness notion of the
specification (section 4.1). -/
def blankStr (s : String) : Bool := s.toList.all (fun c => c.isWhitespace)

/-- Validator as the specification words it for QuestionsRequest: the first
absent or empty field in order inputCsv, businessName, credential, where a
whitespace-only string counts as empty; none on success. -/
def specFirstMissingQuestions (inputCsv businessName credential : String) :
    Option ReqField :=
  if blankStr inputCsv then some ReqField.inputCsv
  else if blankStr businessName then some ReqField.businessName
  else if blankStr credential then some ReqField.credential
  else none

/-- Validator as the specification words it for SwotRequest: order inputCsv,
inputPdf, businessName, credential. -/
def specFirstMissingSwot (inputCsv inputPdf businessName credential : String) :
    Option ReqField :=
  if blankStr inputCsv then some ReqField.inputCsv
  else if blankStr inputPdf then some ReqField.inputPdf
  else if blankStr businessName then some ReqField.businessName
  else if blankStr credential then some ReqField.credential
  else none

/-!
Helper lemmas.
-/

/-- Boolean check that a list of percentages never decreases. -/
def nonDecreasing : List Nat → Bool
  | [] => true
  | [_] => true
  | a :: b :: rest => Nat.ble a b && nonDecreasing (b :: rest)

theorem nonDecreasing_iff_chain (l : List Nat) :
    nonDecreasing l = true ↔ List.Chain' (fun a b => a ≤ b) l := by
  induction l with
  | nil => simp [nonDecreasing]
  | cons a l ih =>
      cases l with
      | nil => simp [nonDecreasing]
      | cons b rest =>
          simp [nonDecreasing, List.chain'_cons, Nat.ble_eq] at ih ⊢
          tauto

theorem generateQuestions_ok_trace (s : LocalState) (r : List String)
    (h : questionsGuardFails s.csvPath s.businessName = false) :
    (generateQuestions s (InvokeOutcome.ok r)).2 = questionsOkTrace r := by
  simp [generateQuestions, h]

theorem generateQuestions_err_trace (s : LocalState) (e : String)
    (h : questionsGuardFails s.csvPath s.businessName = false) :
    (generateQuestions s (InvokeOutcome.err e)).2 = questionsErrTrace e := by
  simp [generateQuestions, h]

theorem generateSwot_ok_trace (s : LocalState) (r : String)
    (h : swotGuardFails s.swotCsvPath s.pdfPath s.swotBusinessName = false) :
    (generateSwot s (InvokeOutcome.ok r)).2 = swotOkTrace := by
  simp [generateSwot, h]

theorem generateSwot_err_trace (s : LocalState) (e : String)
    (h : swotGuardFails s.swotCsvPath s.pdfPath s.swotBusinessName = false) :
    (generateSwot s (InvokeOutcome.err e)).2 = swotErrTrace e := by
  simp [generateSwot, h]

theorem questionsOkTrace_progress (r : List String) :
    progressUpdates (beforeRelease (questionsOkTrace r)) = [0, 20, 40, 60, 90, 100] := by
  cases r with
  | nil => rfl
  | cons a l => rfl

theorem questionsErrTrace_progress (e : String) :
    progressUpdates (beforeRelease (questionsErrTrace e)) = [0, 20, 40, 60] := rfl

theorem questionsErrTrace_progress_full (e : String) :
    progressUpdates (questionsErrTrace e) = [0, 20, 40, 60, 0] := rfl

theorem swotOkTrace_progress :
    progressUpdates (beforeRelease swotOkTrace) = [0, 15, 30, 50, 70, 95, 100] := rfl

theorem swotErrTrace_progress (e : String) :
    progressUpdates (beforeRelease (swotErrTrace e)) = [0, 15, 30, 50, 70] := rfl

theorem swotErrTrace_progress_full (e : String) :
    progressUpdates (swotErrTrace e) = [0, 15, 30, 50, 70, 0] := rfl

theorem invokeOps_append (l1 l2 : List LEvent) :
    invokeOps (l1 ++ l2) = invokeOps l1 ++ invokeOps l2 := by
  induction l1 with
  | nil => rfl
  | cons a rest ih => cases a <;> simp [invokeOps, ih]

theorem workflowOps_append (l1 l2 : List LEvent) :
    workflowOps (l1 ++ l2) = workflowOps l1 ++ workflowOps l2 := by
  simp [workflowOps, invokeOps_append, List.filter_append]

theorem appStep_not_ready (s : LocalState) (a : LAction)
    (hs : s.isOllamaReady = false) (ha : isSuccessCheck a = false) :
    (appStep s a).1.isOllamaReady = false ∧ workflowOps (appStep s a).2 = [] := by
  cases a with
  | submitQuestions t =>
      simp [appStep, hs, workflowOps, invokeOps]
  | submitSwot t =>
      simp [appStep, hs, workflowOps, invokeOps]
  | retryCheck r =>
      cases r with
      | ok v => simp [isSuccessCheck] at ha
      | err e =>
          refine ⟨?_, ?_⟩
          · simp [appStep, hs, checkOllamaStatus]
          · simp [appStep, hs]
            decide

theorem appRun_not_ready (acts : List LAction) :
    ∀ s : LocalState, s.isOllamaReady = false →
      (∀ a ∈ acts, isSuccessCheck a = false) →
      workflowOps (appRun s acts).2 = [] := by
  induction acts with
  | nil => intro s hs _; simp [appRun, workflowOps, invokeOps]
  | cons a rest ih =>
      intro s hs hall
      have ha : isSuccessCheck a = false := hall a (by simp)
      have hstep := appStep_not_ready s a hs ha
      have hrest := ih (appStep s a).1 hstep.1 (fun b hb => hall b (by simp [hb]))
      simp [appRun, workflowOps_append, hstep.2, hrest]

/-!
Claims.
-/

/-- Claim C1 counterexample: with a whitespace-only business name the guard of
the source passes, because whitespace-only strings are truthy, while the claim
demands a MissingField failure naming businessName for exactly that request. -/
theorem C1_counterexample :
    questionsGuardFails ("acme.csv") (" ") = false ∧
    specFirstMissingQuestions ("acme.csv") (" ") ("sk-test") =
      some ReqField.businessName := by
  refine ⟨by decide, by decide⟩

/-- Claim C1 (amended): submission-time validation accepts a request iff every
checked field is present and non-empty as a raw string, whitespace-only
counting as present; the local variant checks only csvPath and businessName
for questions (it has no credential field) and csvPath, pdfPath, businessName
for SWOT, showing one fixed alert on failure instead of naming the first
missing field; the hosted variant enables submission iff the files are
selected and businessName and apiKey are non-empty. -/
theorem C1_amended_validation :
    (∀ c b, questionsGuardFails c b = false ↔ (c ≠ "" ∧ b ≠ "")) ∧
    (∀ c p b, swotGuardFails c p b = false ↔ (c ≠ "" ∧ p ≠ "" ∧ b ≠ "")) ∧
    (∀ s t, questionsGuardFails s.csvPath s.businessName = true →
       (generateQuestions s t).2 = [LEvent.alert questionsValidationMsg]) ∧
    (∀ s t, swotGuardFails s.swotCsvPath s.pdfPath s.swotBusinessName = true →
       (generateSwot s t).2 = [LEvent.alert swotValidationMsg]) ∧
    (∀ s, hostedQuestionsSubmitEnabled s = true ↔
       (s.questionsLoading = false ∧ s.questionsForm.csvFile ≠ none ∧
        s.questionsForm.businessName ≠ "" ∧ s.questionsForm.apiKey ≠ "")) := by
  refine ⟨?_, ?_, ?_, ?_, ?_⟩
  · intro c b
    simp [questionsGuardFails, strTruthy]
  · intro c p b
    simp [swotGuardFails, strTruthy]
    tauto
  · intro s t h
    simp [generateQuestions, h]
  · intro s t h
    simp [generateSwot, h]
  · intro s
    simp [hostedQuestionsSubmitEnabled, strTruthy, Option.isSome_iff_ne_none]
    tauto

/-- Claim C1 witness: a request with no CSV selected is rejected with the
fixed validation alert. -/
theorem C1_amended_validation_witness :
    (generateQuestions { csvPath := "", businessName := "Acme" }
        (InvokeOutcome.ok [("Q1")])).2 = [LEvent.alert questionsValidationMsg] :=
  C1_amended_validation.2.2.1 { csvPath := "", businessName := "Acme" }
    (InvokeOutcome.ok [("Q1")]) (by decide)

/-- Claim C2: a request that fails validation issues no transport call in
either variant: the local handlers return right after the alert with the
state unchanged, so the session slot is never occupied, and the hosted
handlers are unreachable while the submit button is disabled. -/
theorem C2_no_transport_on_invalid :
    (∀ s t, questionsGuardFails s.csvPath s.businessName = true →
       invokeOps (generateQuestions s t).2 = [] ∧ (generateQuestions s t).1 = s) ∧
    (∀ s t, swotGuardFails s.swotCsvPath s.pdfPath s.swotBusinessName = true →
       invokeOps (generateSwot s t).2 = [] ∧ (generateSwot s t).1 = s) ∧
    (∀ s t, hostedQuestionsSubmitEnabled s = false →
       hostedSubmitQuestions s t = (s, [])) ∧
    (∀ s t, hostedSwotSubmitEnabled s = false → hostedSubmitSwot s t = (s, [])) := by
  refine ⟨?_, ?_, ?_, ?_⟩
  · intro s t h
    refine ⟨?_, ?_⟩ <;> simp [generateQuestions, h, invokeOps]
  · intro s t h
    refine ⟨?_, ?_⟩ <;> simp [generateSwot, h, invokeOps]
  · intro s t h
    simp [hostedSubmitQuestions, h]
  · intro s t h
    simp [hostedSubmitSwot, h]

/-- Claim C2 witness: a questions request with an empty business name makes no
transport call and leaves the state untouched. -/
theorem C2_no_transport_on_invalid_witness :
    invokeOps (generateQuestions { csvPath := "acme.csv" }
        (InvokeOutcome.ok [("Q1")])).2 = [] ∧
    (generateQuestions { csvPath := "acme.csv" } (InvokeOutcome.ok [("Q1")])).1 =
      { csvPath := "acme.csv" } :=
  C2_no_transport_on_invalid.1 { csvPath := "acme.csv" }
    (InvokeOutcome.ok [("Q1")]) (by decide)

/-- A ready local state with every form field filled. -/
def readyFilledState : LocalState :=
  { isOllamaReady := true, csvPath := "acme.csv", businessName := "Acme Corp",
    swotCsvPath := "acme.csv", pdfPath := "qa.pdf", swotBusinessName := "Acme Corp" }

/-- Claim C3 counterexample: on a failed questions job the progress values
observed before the session releases are 0, 20, 40, 60: the sequence ends at
the last pre-invoke numeric value, which lingers while the error alert shows,
not at 100 and not at any distinct error-terminal marker; the only later
progress update is the reset to 0 in the delayed finally callback, after the
loading flag is cleared. -/
theorem C3_counterexample :
    progressUpdates (beforeRelease
        (generateQuestions readyFilledState (InvokeOutcome.err ("boom"))).2) =
      [0, 20, 40, 60] ∧
    List.getLast? (progressUpdates (beforeRelease
        (generateQuestions readyFilledState (InvokeOutcome.err ("boom"))).2)) ≠
      some 100 ∧
    progressUpdates
        (generateQuestions readyFilledState (InvokeOutcome.err ("boom"))).2 =
      [0, 20, 40, 60, 0] := by
  refine ⟨by decide, by decide, by decide⟩

/-- Claim C3 (amended): within one job the progress updates observed before
the session slot releases form a non-decreasing sequence; on success it ends
in exactly one 100; on failure no progress update at all follows the
transport error, so the last pre-invoke value (60 for questions, 70 for SWOT)
lingers until release and the delayed finally callback then resets progress
to 0. -/
theorem C3_amended_progress :
    (∀ s r, questionsGuardFails s.csvPath s.businessName = false →
       progressUpdates (beforeRelease
           (generateQuestions s (InvokeOutcome.ok r)).2) = [0, 20, 40, 60, 90, 100] ∧
       List.Chain' (fun a b => a ≤ b) (progressUpdates (beforeRelease
           (generateQuestions s (InvokeOutcome.ok r)).2)) ∧
       List.count 100 (progressUpdates (beforeRelease
           (generateQuestions s (InvokeOutcome.ok r)).2)) = 1) ∧
    (∀ s e, questionsGuardFails s.csvPath s.businessName = false →
       progressUpdates (beforeRelease
           (generateQuestions s (InvokeOutcome.err e)).2) = [0, 20, 40, 60] ∧
       progressUpdates (generateQuestions s (InvokeOutcome.err e)).2 =
         [0, 20, 40, 60, 0]) ∧
    (∀ s r, swotGuardFails s.swotCsvPath s.pdfPath s.swotBusinessName = false →
       progressUpdates (beforeRelease
           (generateSwot s (InvokeOutcome.ok r)).2) = [0, 15, 30, 50, 70, 95, 100] ∧
       List.Chain' (fun a b => a ≤ b) (progressUpdates (beforeRelease
           (generateSwot s (InvokeOutcome.ok r)).2)) ∧
       List.count 100 (progressUpdates (beforeRelease
           (generateSwot s (InvokeOutcome.ok r)).2)) = 1) ∧
    (∀ s e, swotGuardFails s.swotCsvPath s.pdfPath s.swotBusinessName = false →
       progressUpdates (beforeRelease
           (generateSwot s (InvokeOutcome.err e)).2) = [0, 15, 30, 50, 70] ∧
       progressUpdates (generateSwot s (InvokeOutcome.err e)).2 =
         [0, 15, 30, 50, 70, 0]) := by
  refine ⟨?_, ?_, ?_, ?_⟩
  · intro s r h
    rw [generateQuestions_ok_trace s r h, questionsOkTrace_progress r]
    refine ⟨rfl, (nonDecreasing_iff_chain _).mp (by decide), by decide⟩
  · intro s e h
    rw [generateQuestions_err_trace s e h]
    exact ⟨questionsErrTrace_progress e, questionsErrTrace_progress_full e⟩
  · intro s r h
    rw [generateSwot_ok_trace s r h, swotOkTrace_progress]
    refine ⟨rfl, (nonDecreasing_iff_chain _).mp (by decide), by decide⟩
  · intro s e h
    rw [generateSwot_err_trace s e h]
    exact ⟨swotErrTrace_progress e, swotErrTrace_progress_full e⟩

/-- Claim C3 witness: the amended progress facts at a concrete successful
questions job. -/
theorem C3_amended_progress_witness :
    progressUpdates (beforeRelease
        (generateQuestions readyFilledState (InvokeOutcome.ok [("Q1")])).2) =
      [0, 20, 40, 60, 90, 100] ∧
    List.Chain' (fun a b => a ≤ b) (progressUpdates (beforeRelease
        (generateQuestions readyFilledState (InvokeOutcome.ok [("Q1")])).2)) ∧
    List.count 100 (progressUpdates (beforeRelease
        (generateQuestions readyFilledState (InvokeOutcome.ok [("Q1")])).2)) = 1 :=
  C3_amended_progress.1 readyFilledState [("Q1")] (by decide)

/-- Claim C4: the questions workflow emits exactly the phase pairs 0 reading
the CSV, 20 locating the company data, 40 preparing the prompt, 60
generating, 90 processing results and 100 Complete, and the 100 Complete
phase appears only after the transport call has returned successfully: the
events up to and including the invocation contain no 100, and a failed call
never produces one. -/
theorem C4_questions_phases :
    (∀ s r, questionsGuardFails s.csvPath s.businessName = false →
       phasePairs (beforeRelease (generateQuestions s (InvokeOutcome.ok r)).2) =
         [(0, "Reading CSV file..."), (20, "Finding company data..."),
          (40, "Preparing AI prompt..."), (60, "Generating questions with AI..."),
          (90, "Processing results..."), (100, "Complete!")]) ∧
    (∀ s t, List.take 10 ((generateQuestions s t).2) = questionsPreEvents ∨
       invokeOps (generateQuestions s t).2 = []) ∧
    (100 ∉ progressUpdates questionsPreEvents ∧
     invokeOps questionsPreEvents = [("generate_followup_questions")]) ∧
    (∀ s e, 100 ∉ progressUpdates (generateQuestions s (InvokeOutcome.err e)).2) := by
  refine ⟨?_, ?_, ⟨by decide, by decide⟩, ?_⟩
  · intro s r h
    rw [generateQuestions_ok_trace s r h]
    cases r with
    | nil => rfl
    | cons a l => rfl
  · intro s t
    by_cases h : questionsGuardFails s.csvPath s.businessName = true
    · right
      simp [generateQuestions, h, invokeOps]
    · left
      rw [Bool.not_eq_true] at h
      cases t with
      | ok r =>
          rw [generateQuestions_ok_trace s r h]
          cases r with
          | nil => rfl
          | cons a l => rfl
      | err e =>
          rw [generateQuestions_err_trace s e h]
          rfl
  · intro s e
    by_cases h : questionsGuardFails s.csvPath s.businessName = true
    · simp [generateQuestions, h, progressUpdates]
    · rw [Bool.not_eq_true] at h
      rw [generateQuestions_err_trace s e h, questionsErrTrace_progress_full e]
      decide

/-- Claim C4 witness: the phase table at a concrete successful questions
job. -/
theorem C4_questions_phases_witness :
    phasePairs (beforeRelease
        (generateQuestions readyFilledState (InvokeOutcome.ok [("Q1"), ("Q2")])).2) =
      [(0, "Reading CSV file..."), (20, "Finding company data..."),
       (40, "Preparing AI prompt..."), (60, "Generating questions with AI..."),
       (90, "Processing results..."), (100, "Complete!")] :=
  C4_questions_phases.1 readyFilledState [("Q1"), ("Q2")] (by decide)

/-- A local state with the SWOT form filled and no job in flight. -/
def swotFilledIdle : LocalState :=
  { isOllamaReady := true, swotCsvPath := "acme.csv", pdfPath := "qa.pdf",
    swotBusinessName := "Acme Corp" }

/-- The same state with both forms filled and the shared loading flag set. -/
def bothFilledBusy : LocalState :=
  { swotFilledIdle with
    loading := true,
    csvPath := "acme.csv",
    businessName := "Acme Corp" }

/-- Claim C5 counterexample: the local variant keeps one shared loading flag
for both workflows, so occupying it, for instance by a questions job, also
disables the SWOT submit even though the SWOT session has no job in flight:
the two workflow slots are one shared slot, not independent. -/
theorem C5_counterexample :
    localSwotSubmitEnabled swotFilledIdle = true ∧
    localSwotSubmitEnabled { swotFilledIdle with loading := true } = false ∧
    localQuestionsSubmitEnabled bothFilledBusy = false := by
  refine ⟨by decide, by decide, by decide⟩

/-- Claim C5 (amended): in the hosted variant the two sessions are
independent: each submit-enabled condition ignores the loading flag of the
other slot and a questions submission leaves the whole SWOT side untouched;
submitting while a slot is busy is prevented by the disabled submit button and
is a no-op leaving the state unchanged, rather than yielding a SessionBusy
error. In the local variant both workflows share the single loading flag, so
a busy slot disables both submit buttons at once. -/
theorem C5_amended_sessions :
    (∀ s b, hostedSwotSubmitEnabled { s with questionsLoading := b } =
       hostedSwotSubmitEnabled s) ∧
    (∀ s b, hostedQuestionsSubmitEnabled { s with swotLoading := b } =
       hostedQuestionsSubmitEnabled s) ∧
    (∀ s t, s.questionsLoading = true → hostedSubmitQuestions s t = (s, [])) ∧
    (∀ s t, s.swotLoading = true → hostedSubmitSwot s t = (s, [])) ∧
    (∀ s t, (hostedGenerateQuestions s t).1.swotForm = s.swotForm ∧
            (hostedGenerateQuestions s t).1.swotResult = s.swotResult ∧
            (hostedGenerateQuestions s t).1.swotLoading = s.swotLoading) ∧
    (∀ s, s.loading = true →
       localQuestionsSubmitEnabled s = false ∧ localSwotSubmitEnabled s = false) := by
  refine ⟨?_, ?_, ?_, ?_, ?_, ?_⟩
  · intro s b
    simp [hostedSwotSubmitEnabled]
  · intro s b
    simp [hostedQuestionsSubmitEnabled]
  · intro s t h
    simp [hostedSubmitQuestions, hostedQuestionsSubmitEnabled, h]
  · intro s t h
    simp [hostedSubmitSwot, hostedSwotSubmitEnabled, h]
  · intro s t
    cases t <;> simp [hostedGenerateQuestions, hostedQuestionsPending]
  · intro s h
    refine ⟨?_, ?_⟩ <;> simp [localQuestionsSubmitEnabled, localSwotSubmitEnabled, h]

/-- Claim C5 witness: with the shared local loading flag set, both local
submit buttons are disabled. -/
theorem C5_amended_sessions_witness :
    localQuestionsSubmitEnabled { swotFilledIdle with loading := true } = false ∧
    localSwotSubmitEnabled { swotFilledIdle with loading := true } = false :=
  C5_amended_sessions.2.2.2.2.2 { swotFilledIdle with loading := true } rfl

/-- A not-ready local state with the questions form filled. -/
def notReadyFilled : LocalState :=
  { isOllamaReady := false, csvPath := "acme.csv", businessName := "Acme Corp" }

/-- Claim C6 counterexample: while the readiness check has not succeeded the
main content, including the generate buttons, is not rendered, so a submit
action is a no-op: the state is unchanged and no event at all is produced: in
particular no Failed NotReady result is yielded, contradicting the claimed
immediate Failed(NotReady). -/
theorem C6_counterexample :
    appStep notReadyFilled (LAction.submitQuestions (InvokeOutcome.ok [("Q1")])) =
      (notReadyFilled, []) := by decide

/-- Claim C6 (amended): no workflow invocation reaches the transport in any
process lifetime whose readiness checks (the mount check and every retry) all
fail; while unready every submit action is a no-op producing no events and no
error value, because the submit buttons are not rendered; the retry action
re-runs the readiness check; and once ready the app stays ready. -/
theorem C6_amended_readiness :
    (∀ e acts, (∀ a ∈ acts, isSuccessCheck a = false) →
       workflowOps (processRun (InvokeOutcome.err e) acts).2 = []) ∧
    (∀ s t, s.isOllamaReady = false → appStep s (LAction.submitQuestions t) = (s, [])) ∧
    (∀ s t, s.isOllamaReady = false → appStep s (LAction.submitSwot t) = (s, [])) ∧
    (∀ s r, s.isOllamaReady = false →
       appStep s (LAction.retryCheck r) =
         (checkOllamaStatus s r, [LEvent.invoke checkOp])) ∧
    (∀ s a, s.isOllamaReady = true → (appStep s a).1.isOllamaReady = true) := by
  refine ⟨?_, ?_, ?_, ?_, ?_⟩
  · intro e acts hall
    have h0 : (checkOllamaStatus initialLocalState (InvokeOutcome.err e)).isOllamaReady
        = false := rfl
    have := appRun_not_ready acts (checkOllamaStatus initialLocalState
      (InvokeOutcome.err e)) h0 hall
    simp [processRun, workflowOps, invokeOps, checkOp] at this ⊢
    exact this
  · intro s t h
    simp [appStep, h]
  · intro s t h
    simp [appStep, h]
  · intro s r h
    simp [appStep, h]
  · intro s a h
    cases a with
    | submitQuestions t =>
        by_cases hg : questionsGuardFails s.csvPath s.businessName = true
        · simp [appStep, h, generateQuestions, hg]
        · rw [Bool.not_eq_true] at hg
          cases t <;> simp [appStep, h, generateQuestions, hg]
    | submitSwot t =>
        by_cases hg : swotGuardFails s.swotCsvPath s.pdfPath s.swotBusinessName = true
        · simp [appStep, h, generateSwot, hg]
        · rw [Bool.not_eq_true] at hg
          cases t <;> simp [appStep, h, generateSwot, hg]
    | retryCheck r =>
        simp [appStep, h]

/-- Claim C6 witness: a process whose mount check fails and whose only action
is a questions submission issues no workflow transport call. -/
theorem C6_amended_readiness_witness :
    workflowOps (processRun (InvokeOutcome.err ("Ollama is not running"))
      [LAction.submitQuestions (InvokeOutcome.ok [("Q1")])]).2 = [] :=
  C6_amended_readiness.1 ("Ollama is not running")
    [LAction.submitQuestions (InvokeOutcome.ok [("Q1")])] (by decide)

/-- Claim C7 counterexample: a failed download fetch whose underlying message
is connection refused is surfaced as the fixed text Failed to download PDF:
the caught error is discarded, not surfaced verbatim. -/
theorem C7_counterexample :
    (downloadPdf {} (DownloadOutcome.networkError ("connection refused"))).error =
      some downloadFailedMsg ∧ downloadFailedMsg ≠ "connection refused" := by
  refine ⟨rfl, by decide⟩

/-- Claim C7 (amended): every generation error is terminal for the job and is
surfaced for display with its message kept: hosted network errors verbatim,
hosted non-2xx bodies through the duck-typed detail normalization, local
generation errors appended to the alert text, local save errors likewise;
hosted download failures are surfaced but as the fixed message Failed to
download PDF, with the underlying error discarded. -/
theorem C7_amended_errors :
    (∀ s m, (hostedGenerateQuestions s (FetchOutcome.networkError m)).1.error = some m ∧
       (hostedGenerateQuestions s (FetchOutcome.networkError m)).1.questionsLoading
         = false) ∧
    (∀ s d, (hostedGenerateQuestions s (FetchOutcome.httpError d)).1.error =
       some (detailMessage d questionsFallbackMsg)) ∧
    (∀ s m, (hostedGenerateSwot s (FetchOutcome.networkError m)).1.error = some m ∧
       (hostedGenerateSwot s (FetchOutcome.networkError m)).1.swotLoading = false) ∧
    (∀ s e, questionsGuardFails s.csvPath s.businessName = false →
       LEvent.alert ("Error generating questions: " ++ e) ∈
         (generateQuestions s (InvokeOutcome.err e)).2 ∧
       (generateQuestions s (InvokeOutcome.err e)).1.loading = false) ∧
    (∀ s p e, s.questions.isEmpty = false →
       saveQuestionsToPdf s (some p) (InvokeOutcome.err e) =
         [LEvent.invoke ("save_questions_to_pdf"),
          LEvent.alert ("Error saving questions: " ++ e)]) ∧
    (∀ s o, o ≠ DownloadOutcome.ok → (downloadPdf s o).error = some downloadFailedMsg) := by
  refine ⟨?_, ?_, ?_, ?_, ?_, ?_⟩
  · intro s m
    exact ⟨rfl, rfl⟩
  · intro s d
    rfl
  · intro s m
    exact ⟨rfl, rfl⟩
  · intro s e h
    refine ⟨?_, ?_⟩
    · rw [generateQuestions_err_trace s e h]
      simp [questionsErrTrace, questionsPreEvents, finallyEvents]
    · simp [generateQuestions, h]
  · intro s p e h
    simp [saveQuestionsToPdf, h]
  · intro s o h
    cases o with
    | ok => exact absurd rfl h
    | httpError => rfl
    | networkError m => rfl

/-- Claim C7 witness: the amended error-surfacing facts at a concrete failed
questions job. -/
theorem C7_amended_errors_witness :
    LEvent.alert ("Error generating questions: " ++ "model not found") ∈
      (generateQuestions readyFilledState
        (InvokeOutcome.err ("model not found"))).2 ∧
    (generateQuestions readyFilledState
        (InvokeOutcome.err ("model not found"))).1.loading = false :=
  C7_amended_errors.2.2.2.1 readyFilledState ("model not found") (by decide)

/-- Claim C8: when the questions transport call resolves with zero questions
the session still completes: progress reaches the terminal 100 before the
slot releases, the warning alert is shown to the user, the slot is released
and the empty result is stored; the job is not treated as a hard failure. -/
theorem C8_empty_result_warning :
    ∀ s, questionsGuardFails s.csvPath s.businessName = false →
      List.getLast? (progressUpdates (beforeRelease
        (generateQuestions s (InvokeOutcome.ok [])).2)) = some 100 ∧
      LEvent.alert emptyQuestionsMsg ∈ (generateQuestions s (InvokeOutcome.ok [])).2 ∧
      (generateQuestions s (InvokeOutcome.ok [])).1.loading = false ∧
      (generateQuestions s (InvokeOutcome.ok [])).1.questions = [] := by
  intro s h
  refine ⟨?_, ?_, ?_, ?_⟩
  · rw [generateQuestions_ok_trace s [] h, questionsOkTrace_progress]
    rfl
  · rw [generateQuestions_ok_trace s [] h]
    simp [questionsOkTrace, questionsPreEvents, finallyEvents]
  · simp [generateQuestions, h]
  · simp [generateQuestions, h]

/-- Claim C8 witness: the empty-result behavior at a concrete state. -/
theorem C8_empty_result_warning_witness :
    List.getLast? (progressUpdates (beforeRelease
      (generateQuestions readyFilledState (InvokeOutcome.ok [])).2)) = some 100 ∧
    LEvent.alert emptyQuestionsMsg ∈
      (generateQuestions readyFilledState (InvokeOutcome.ok [])).2 ∧
    (generateQuestions readyFilledState (InvokeOutcome.ok [])).1.loading = false ∧
    (generateQuestions readyFilledState (InvokeOutcome.ok [])).1.questions = [] :=
  C8_empty_result_warning readyFilledState (by decide)

/-- Claim C9: the additional-questions description of the hosted success
panel computes questions_count - 5 with exact integer arithmetic and no
clamping: it is nonnegative exactly when the count reaches the fixed preview
size 5, and is negative whenever questions_count < 5. -/
theorem C9_additional_count :
    ∀ n : Int, additionalQuestionsCount n = n - 5 ∧
      (0 ≤ additionalQuestionsCount n ↔ 5 ≤ n) ∧
      (n < 5 → additionalQuestionsCount n < 0) := by
  intro n
  refine ⟨rfl, ?_, ?_⟩ <;> simp only [additionalQuestionsCount] <;> omega

/-- Claim C9 witness: a result with three questions is described with minus
two additional questions. -/
theorem C9_additional_count_witness : additionalQuestionsCount 3 < 0 :=
  (C9_additional_count 3).2.2 (by decide)

/-- Claim C10: a hosted submission clears the shared error display and its
own previous result in the state from which the fetch is issued, while the
form and result of the other workflow are unchanged both at that moment and
in the final state, whatever the outcome; after a failed submission the
previous result of the submitting workflow stays cleared. -/
theorem C10_submission_frame :
    (∀ s, (hostedQuestionsPending s).error = none ∧
          (hostedQuestionsPending s).questionsResult = none ∧
          (hostedQuestionsPending s).swotForm = s.swotForm ∧
          (hostedQuestionsPending s).swotResult = s.swotResult ∧
          (hostedQuestionsPending s).questionsForm = s.questionsForm) ∧
    (∀ s t, (hostedGenerateQuestions s t).1.swotForm = s.swotForm ∧
            (hostedGenerateQuestions s t).1.swotResult = s.swotResult ∧
            (hostedGenerateQuestions s t).1.questionsForm = s.questionsForm) ∧
    (∀ s d, (hostedGenerateQuestions s (FetchOutcome.httpError d)).1.questionsResult
       = none) ∧
    (∀ s m, (hostedGenerateQuestions s (FetchOutcome.networkError m)).1.questionsResult
       = none) ∧
    (∀ s, (hostedSwotPending s).error = none ∧
          (hostedSwotPending s).swotResult = none ∧
          (hostedSwotPending s).questionsForm = s.questionsForm ∧
          (hostedSwotPending s).questionsResult = s.questionsResult) ∧
    (∀ s t, (hostedGenerateSwot s t).1.questionsForm = s.questionsForm ∧
            (hostedGenerateSwot s t).1.questionsResult = s.questionsResult) ∧
    (∀ s d, (hostedGenerateSwot s (FetchOutcome.httpError d)).1.swotResult = none) ∧
    (∀ s m, (hostedGenerateSwot s (FetchOutcome.networkError m)).1.swotResult = none) := by
  refine ⟨?_, ?_, ?_, ?_, ?_, ?_, ?_, ?_⟩
  · intro s
    exact ⟨rfl, rfl, rfl, rfl, rfl⟩
  · intro s t
    cases t <;> exact ⟨rfl, rfl, rfl⟩
  · intro s d
    rfl
  · intro s m
    rfl
  · intro s
    exact ⟨rfl, rfl, rfl, rfl⟩
  · intro s t
    cases t <;> exact ⟨rfl, rfl⟩
  · intro s d
    rfl
  · intro s m
    rfl
